import Mathlib

/-!
Shallow embedding of the batch lifecycle and crate reconciliation engine of
the asikh-oms backend (src/backend/app/api/routes/batches.py,
src/backend/app/api/routes/reconciliation.py, src/backend/app/core/redis_client.py).

Conventions of the embedding:
- batch/crate/user identities are Nat; timestamps are Nat; weights are ℚ
  (the Python code uses floats; we model them as exact rationals);
- statuses are the literal strings the source uses;
- a request handler that raises HTTPException before db.commit() leaves the
  persisted state unchanged, so a fallible handler is a function returning
  Except String <new state>: an error value means nothing was persisted;
- SQL aggregate queries become folds over explicit lists standing for the
  relational tables.
-/

/-- A crate row (app/models/crate.py as used by the routes under study). -/
structure Crate where
  id : Nat
  qr_code : String
  weight : ℚ
  batch_id : Option Nat
  farm_id : Option Nat
  variety_id : Nat
  supervisor_id : Nat
  harvest_date : Nat
  deriving Repr, DecidableEq

/-- A batch row (app/models/batch.py as used by the routes under study). -/
structure Batch where
  id : Nat
  batch_code : String
  status : String
  supervisor_id : Nat
  from_location : Nat
  to_location : Option Nat
  transport_mode : Option String
  vehicle_number : Option String
  driver_name : Option String
  eta : Option Nat
  departure_time : Option Nat
  arrival_time : Option Nat
  total_crates : Int
  total_weight : ℚ
  notes : Option String
  updated_at : Option Nat
  deriving Repr, DecidableEq

/-- A CrateReconciliation row (weight-based reconciliation record). -/
structure CrateReconciliation where
  batch_id : Nat
  crate_id : Nat
  crate_harvest_date : Nat
  qr_code : String
  reconciled_by_id : Nat
  reconciled_at : Nat
  weight : ℚ
  original_weight : ℚ
  weight_differential : ℚ
  photo_url : Option String
  is_reconciled : Bool
  deriving Repr, DecidableEq

/-- A ReconciliationLog row (scan-based reconciliation record). -/
structure ReconciliationLog where
  id : Nat
  batch_id : Nat
  scanned_qr : String
  crate_id : Option Nat
  status : String
  timestamp : Nat
  scanned_by_id : Nat
  deriving Repr, DecidableEq

/-- batches.py line 24: the VALID_BATCH_TRANSITIONS dict; `.get(key, [])`
semantics give `[]` for any status not in the dict. -/
def VALID_BATCH_TRANSITIONS (current : String) : List String :=
  if current = "open" then ["in_transit", "arrived"]
  else if current = "in_transit" then ["arrived"]
  else if current = "arrived" then ["delivered"]
  else if current = "delivered" then ["closed"]
  else if current = "closed" then []
  else []

/-- batches.py line 40: join of the allowed list for the error message
(source renders ", ".join(allowed), or the word none when empty). -/
def allowedTransitionsStr (allowed : List String) : String :=
  if allowed.isEmpty then "none" else String.intercalate ", " allowed

/-- batches.py line 36, validate_batch_transition: returns a validity flag
and an error message naming the current status and the allowed set. -/
def validate_batch_transition (current_status new_status : String) : Bool × String :=
  if new_status ∉ VALID_BATCH_TRANSITIONS current_status then
    let allowed := VALID_BATCH_TRANSITIONS current_status
    (false, "Cannot transition batch from " ++ current_status ++ " to " ++ new_status
      ++ ". Allowed transitions: " ++ allowedTransitionsStr allowed)
  else (true, "")

/-- The BatchUpdate request schema: every field optional (absent = None). -/
structure BatchUpdate where
  supervisor_id : Option Nat := none
  transport_mode : Option String := none
  vehicle_number : Option String := none
  driver_name : Option String := none
  eta : Option Nat := none
  departure_time : Option Nat := none
  arrival_time : Option Nat := none
  status : Option String := none
  notes : Option String := none
  deriving Repr

/-- batches.py lines 571-583 of update_batch: applying the departure_time
field, with its status side effect, then the arrival_time field, with its
status side effect (evaluated in source order). -/
def applyTimestampFields (u : BatchUpdate) (b : Batch) : Batch :=
  let b1 :=
    match u.departure_time with
    | none => b
    | some t =>
      let b1 := { b with departure_time := some t }
      if b1.status = "open" then { b1 with status := "in_transit" } else b1
  match u.arrival_time with
  | none => b1
  | some t =>
    let b2 := { b1 with arrival_time := some t }
    if b2.status = "in_transit" then { b2 with status := "delivered" } else b2

/-- batches.py lines 585-618 of update_batch: the explicit status field.
Validates the transition, auto-stamps timestamps, enforces the role gates,
then sets the status. -/
def applyStatusField (role : String) (now : Nat) (u : BatchUpdate) (b : Batch) :
    Except String Batch :=
  match u.status with
  | none => .ok b
  | some s =>
    let v := validate_batch_transition b.status s
    if v.1 = false then .error v.2
    else
      let b1 :=
        if s = "in_transit" ∧ b.status = "open" then
          if b.departure_time = none then { b with departure_time := some now } else b
        else b
      let b2 :=
        if s = "arrived" ∧ (b1.status = "open" ∨ b1.status = "in_transit") then
          if b1.arrival_time = none then { b1 with arrival_time := some now } else b1
        else b1
      if s = "delivered" ∧ role ∉ ["admin", "packhouse", "manager"] then
        .error "Only admins, packhouse users, or managers can mark a batch as delivered"
      else if s = "closed" ∧ role ∉ ["admin", "packhouse"] then
        .error "Only admins or packhouse users can close a batch"
      else
        .ok { b2 with status := s }

/-- batches.py line 530, update_batch: the PUT /batches handler body, from
the supervisor check down to the final field updates. supervisorExists
stands for the user-directory lookup; role is current_user.role; now is
datetime.utcnow(). An error value models an HTTPException raised before
db.commit(), which leaves the persisted batch unchanged. -/
def update_batch (supervisorExists : Nat → Bool) (role : String) (now : Nat)
    (b : Batch) (u : BatchUpdate) : Except String Batch :=
  let step0 : Except String Batch :=
    match u.supervisor_id with
    | none => .ok b
    | some sid =>
      if supervisorExists sid then .ok { b with supervisor_id := sid }
      else .error "Supervisor not found"
  match step0 with
  | .error e => .error e
  | .ok b0 =>
    let b1 := match u.transport_mode with | none => b0 | some v => { b0 with transport_mode := some v }
    let b2 := match u.vehicle_number with | none => b1 | some v => { b1 with vehicle_number := some v }
    let b3 := match u.driver_name with | none => b2 | some v => { b2 with driver_name := some v }
    let b4 := match u.eta with | none => b3 | some v => { b3 with eta := some v }
    let b5 := applyTimestampFields u b4
    match applyStatusField role now u b5 with
    | .error e => .error e
    | .ok b6 =>
      let b7 := match u.notes with | none => b6 | some v => { b6 with notes := some v }
      .ok b7

/-- batches.py line 978, add_crate_to_batch: given the batch row and the
crate row already looked up, performs the status precondition, the
already-assigned checks, the assignment, the farm_id backfill and the
aggregate increments. An error value models an HTTPException (nothing
persisted). Success returns the updated (batch, crate) pair. -/
def add_crate_to_batch (batch : Batch) (crate : Crate) : Except String (Batch × Crate) :=
  if batch.status ∉ ["open"] then
    .error ("Cannot add crates to batch with status " ++ batch.status)
  else if crate.batch_id ≠ none then
    if crate.batch_id = some batch.id then
      .ok (batch, crate)
    else
      .error "Crate already assigned to another batch"
  else
    let crate1 := { crate with batch_id := some batch.id }
    let crate2 :=
      if crate1.farm_id = none then { crate1 with farm_id := some batch.from_location } else crate1
    let batch1 := { batch with
      total_crates := batch.total_crates + 1,
      total_weight := batch.total_weight + crate2.weight }
    .ok (batch1, crate2)

/-- Python round(x, 2) on a rational scaled by 100: round half to even. -/
def pyRoundInt (q : ℚ) : ℤ :=
  let f := q.floor
  let frac := q - (f : ℚ)
  if frac < 1/2 then f
  else if 1/2 < frac then f + 1
  else if f % 2 = 0 then f else f + 1

/-- Python round(x, 2): two-decimal rounding, half to even. -/
def round2 (q : ℚ) : ℚ := (pyRoundInt (q * 100) : ℚ) / 100

/-- SELECT count(Crate.id) WHERE Crate.batch_id = bid. -/
def countCratesInBatch (crates : List Crate) (bid : Nat) : Nat :=
  (crates.filter (fun c => c.batch_id == some bid)).length

/-- SELECT count(CrateReconciliation.id) WHERE batch_id = bid AND is_reconciled. -/
def countReconciledInBatch (recons : List CrateReconciliation) (bid : Nat) : Nat :=
  (recons.filter (fun r => r.batch_id == bid && r.is_reconciled)).length

/-- SELECT sum(Crate.weight) WHERE Crate.batch_id = bid (NULL sum reads as 0). -/
def sumCrateWeights (crates : List Crate) (bid : Nat) : ℚ :=
  ((crates.filter (fun c => c.batch_id == some bid)).map (fun c => c.weight)).sum

/-- SELECT sum(CrateReconciliation.weight) WHERE batch_id = bid AND is_reconciled. -/
def sumReconciledWeights (recons : List CrateReconciliation) (bid : Nat) : ℚ :=
  ((recons.filter (fun r => r.batch_id == bid && r.is_reconciled)).map (fun r => r.weight)).sum

/-- SELECT sum(weight_differential) WHERE batch_id = bid AND is_reconciled. -/
def sumWeightDifferentials (recons : List CrateReconciliation) (bid : Nat) : ℚ :=
  ((recons.filter (fun r => r.batch_id == bid && r.is_reconciled)).map
    (fun r => r.weight_differential)).sum

/-- The dict returned by GET /batches/batch_id/reconciliation-stats. -/
structure ReconciliationStatsOut where
  total_crates : Nat
  reconciled_crates : Nat
  missing_crates : Int
  reconciliation_percentage : ℚ
  is_reconciliation_complete : Bool
  total_original_weight : ℚ
  total_reconciled_weight : ℚ
  total_weight_differential : ℚ
  weight_loss_percentage : ℚ
  deriving Repr, DecidableEq

/-- batches.py line 1321, get_reconciliation_stats: the aggregate queries and
the completeness check over the crate and reconciliation tables. The same
aggregates are recomputed inline by reconcile_crate (lines 1263-1295) for its
response, so this builder is shared by both handlers. -/
def get_reconciliation_stats (crates : List Crate) (recons : List CrateReconciliation)
    (bid : Nat) : ReconciliationStatsOut :=
  let total_crates := countCratesInBatch crates bid
  let reconciled_crates := countReconciledInBatch recons bid
  let missing_crates : Int := (total_crates : Int) - (reconciled_crates : Int)
  let is_reconciliation_complete := reconciled_crates == total_crates && decide (0 < total_crates)
  let total_original_weight := sumCrateWeights crates bid
  let total_reconciled_weight := sumReconciledWeights recons bid
  let total_weight_differential := sumWeightDifferentials recons bid
  { total_crates := total_crates
    reconciled_crates := reconciled_crates
    missing_crates := missing_crates
    reconciliation_percentage :=
      round2 (if 0 < total_crates then (reconciled_crates : ℚ) / (total_crates : ℚ) * 100 else 0)
    is_reconciliation_complete := is_reconciliation_complete
    total_original_weight := round2 total_original_weight
    total_reconciled_weight := round2 total_reconciled_weight
    total_weight_differential := round2 total_weight_differential
    weight_loss_percentage :=
      round2 (if 0 < total_original_weight
        then total_weight_differential / total_original_weight * 100 else 0) }

/-- batches.py line 1468, mark_batch_delivered: the POST /deliver handler.
Validates the transition to delivered, then requires the reconciliation
completeness flag of get_reconciliation_stats before setting the status. -/
def mark_batch_delivered (b : Batch) (crates : List Crate)
    (recons : List CrateReconciliation) (now : Nat) : Except String Batch :=
  let v := validate_batch_transition b.status "delivered"
  if v.1 = false then .error v.2
  else
    let stats := get_reconciliation_stats crates recons b.id
    if stats.is_reconciliation_complete = false then
      .error "Cannot mark batch as delivered. All crates must be reconciled first."
    else
      .ok { b with status := "delivered", updated_at := some now }

/-- Replace the first record satisfying p by f of it (the SQLAlchemy
query.first() row that reconcile_crate updates in place). -/
def updateFirstRec (p : CrateReconciliation → Bool)
    (f : CrateReconciliation → CrateReconciliation) :
    List CrateReconciliation → List CrateReconciliation
  | [] => []
  | r :: rs => if p r then f r :: rs else r :: updateFirstRec p f rs

/-- batches.py line 1137, reconcile_crate: the weight-based reconciliation
handler, given the batch row and the crate/reconciliation tables. Validates
the mandatory positive weight and the batch status, resolves the crate,
requires it assigned to this batch, then upserts the reconciliation record
with the snapshotted declared weight and the differential observed minus
declared, and recomputes the aggregate statistics from the tables. -/
def reconcile_crate (b : Batch) (crates : List Crate) (recons : List CrateReconciliation)
    (qr : String) (weight : Option ℚ) (photo_url : Option String) (userId now : Nat) :
    Except String (List CrateReconciliation × ReconciliationStatsOut) :=
  match weight with
  | none => .error "Weight is required for reconciliation"
  | some w =>
    if w ≤ 0 then .error "Weight must be a positive number"
    else if b.status ∉ ["arrived", "delivered"] then
      .error ("Cannot reconcile crates for batch with status " ++ b.status
        ++ ". Batch must be arrived or delivered.")
    else
      match crates.find? (fun c => c.qr_code == qr) with
      | none => .error ("Crate with QR code " ++ qr ++ " not found")
      | some crate =>
        if crate.batch_id ≠ some b.id then
          .error ("Crate " ++ qr ++ " is not assigned to this batch")
        else
          let key := fun r : CrateReconciliation => r.batch_id == b.id && r.qr_code == qr
          let recons2 :=
            if (recons.find? key).isSome then
              updateFirstRec key (fun r => { r with
                weight := w
                original_weight := crate.weight
                weight_differential := w - crate.weight
                photo_url := photo_url
                reconciled_by_id := userId
                reconciled_at := now }) recons
            else
              let newRec : CrateReconciliation :=
                { batch_id := b.id
                  crate_id := crate.id
                  crate_harvest_date := crate.harvest_date
                  qr_code := qr
                  reconciled_by_id := userId
                  reconciled_at := now
                  weight := w
                  original_weight := crate.weight
                  weight_differential := w - crate.weight
                  photo_url := photo_url
                  is_reconciled := true }
              recons ++ [newRec]
          .ok (recons2, get_reconciliation_stats crates recons2 b.id)

/-- batches.py line 921 (get_batch_stats): the reconciled count of the
scan-based flow, the number of matched ReconciliationLog rows for the batch. -/
def reconciled_count (logs : List ReconciliationLog) (bid : Nat) : Nat :=
  (logs.filter (fun l => l.batch_id == bid && l.status == "matched")).length

/-- reconciliation.py line 156: count(distinct ReconciliationLog.crate_id)
over matched logs of the batch; SQL COUNT(DISTINCT col) ignores NULLs. -/
def matchedDistinctCrates (logs : List ReconciliationLog) (bid : Nat) : Nat :=
  (((logs.filter (fun l => l.batch_id == bid && l.status == "matched")).filterMap
    (fun l => l.crate_id)).dedup).length

/-- Result of one scan call: the classification returned to the caller, the
reconciliation log table after the call, and the batch row after the call. -/
structure ScanResult where
  scan_status : String
  logs : List ReconciliationLog
  batch : Batch
  deriving Repr, DecidableEq

/-- reconciliation.py line 36, scan_crate: the POST /scan handler, given the
batch row and the crate and log tables. Rejects ineligible batch statuses;
classifies duplicate / not_found / wrong_batch / matched; persists a new log
unless duplicate; may auto-advance a delivered batch to reconciled when all
assigned crates have a matched log. -/
def scan_crate (b : Batch) (crates : List Crate) (logs : List ReconciliationLog)
    (qr : String) (userId now newId : Nat) : Except String ScanResult :=
  if b.status ∉ ["in_transit", "delivered", "reconciled"] then
    .error ("Batch " ++ b.batch_code ++ " is in " ++ b.status
      ++ " status and cannot be reconciled")
  else
    match logs.find? (fun l => l.batch_id == b.id && l.scanned_qr == qr) with
    | some _ => .ok { scan_status := "duplicate", logs := logs, batch := b }
    | none =>
      let sc : String × Option Nat :=
        match crates.find? (fun c => c.qr_code == qr) with
        | none => ("not_found", none)
        | some c =>
          if c.batch_id ≠ some b.id then ("wrong_batch", some c.id)
          else ("matched", some c.id)
      let newLog : ReconciliationLog :=
        { id := newId
          batch_id := b.id
          scanned_qr := qr
          crate_id := sc.2
          status := sc.1
          timestamp := now
          scanned_by_id := userId }
      let logs2 := logs ++ [newLog]
      let b2 :=
        if b.status = "delivered" ∧ sc.1 = "matched" then
          let total_crates_in_batch := countCratesInBatch crates b.id
          let matched_crates := matchedDistinctCrates logs2 b.id
          if matched_crates ≥ total_crates_in_batch ∧ 0 < total_crates_in_batch then
            { b with status := "reconciled" }
          else b
        else b
      .ok { scan_status := sc.1, logs := logs2, batch := b2 }

/-- The JSON blob at the Redis key batch:id (redis_client.py line 200). -/
structure RedisBatchData where
  closed : Bool
  closed_at : Option Nat
  closed_by : Option Nat
  total_crates : Nat
  reconciled_count : Nat
  deriving Repr, DecidableEq

/-- One value of the Redis hash batch:id:crates: the per-crate marker. -/
structure CrateMarker where
  reconciled_by : Nat
  reconciled_at : Nat
  photo_url : Option String
  weight : Option ℚ
  deriving Repr, DecidableEq

/-- The fast-path cache state for one batch: the JSON blob at batch:id
(none when the key is absent) and the hash batch:id:crates, an association
list keyed by crate id. -/
structure RedisBatchState where
  batchData : Option RedisBatchData
  crateMarkers : List (String × CrateMarker)
  deriving Repr, DecidableEq

/-- redis_client.py line 190, init_batch_reconciliation: the zeroed blob. -/
def initBatchData : RedisBatchData :=
  { closed := false, closed_at := none, closed_by := none
    total_crates := 0, reconciled_count := 0 }

/-- Redis HSET on the marker hash: overwrite the value when the field
exists, append it otherwise. -/
def hsetMarker (m : List (String × CrateMarker)) (k : String) (v : CrateMarker) :
    List (String × CrateMarker) :=
  if m.any (fun p => p.1 == k) then
    m.map (fun p => if p.1 == k then (k, v) else p)
  else m ++ [(k, v)]

/-- The dict returned by BatchReconciliationManager.get_reconciliation_status. -/
structure RedisReconStatus where
  closed : Bool
  closed_at : Option Nat
  closed_by : Option Nat
  total_crates : Nat
  reconciled_count : Nat
  crates : List (String × CrateMarker)
  deriving Repr, DecidableEq

namespace BatchReconciliationManager

/-- redis_client.py line 210, get_reconciliation_status: reads the blob
(zero-initializing it when absent), reads the whole marker hash, and reports
reconciled_count as the size of the hash, not the stored scalar. -/
def get_reconciliation_status (s : RedisBatchState) : RedisReconStatus :=
  let batch_data := s.batchData.getD initBatchData
  { closed := batch_data.closed
    closed_at := batch_data.closed_at
    closed_by := batch_data.closed_by
    total_crates := batch_data.total_crates
    reconciled_count := s.crateMarkers.length
    crates := s.crateMarkers }

/-- redis_client.py line 270, reconcile_crate: HSET the marker for the crate
(overwriting any prior marker), then store the hash size back into the
reconciled_count scalar of the blob. -/
def reconcile_crate (s : RedisBatchState) (crate_id : String) (user_id : Nat)
    (timestamp : Nat) (photo_url : Option String) (weight : Option ℚ) :
    RedisBatchState :=
  let batch_data := s.batchData.getD initBatchData
  let crate_data : CrateMarker :=
    { reconciled_by := user_id, reconciled_at := timestamp
      photo_url := photo_url, weight := weight }
  let m2 := hsetMarker s.crateMarkers crate_id crate_data
  { batchData := some { batch_data with reconciled_count := m2.length }
    crateMarkers := m2 }

end BatchReconciliationManager

/-! Concrete fixtures used by the witness and counterexample instances. -/

/-- A concrete open batch with no crates yet. -/
def batchOpen : Batch :=
  { id := 1
    batch_code := "BATCH-20250101-001"
    status := "open"
    supervisor_id := 7
    from_location := 3
    to_location := some 4
    transport_mode := some "truck"
    vehicle_number := none
    driver_name := none
    eta := none
    departure_time := none
    arrival_time := none
    total_crates := 0
    total_weight := 0
    notes := none
    updated_at := none }

/-- The same batch in another lifecycle status. -/
def batchWith (st : String) : Batch := { batchOpen with status := st }

/-- A concrete crate not assigned to any batch. -/
def crateFree : Crate :=
  { id := 11
    qr_code := "QR-001"
    weight := 5
    batch_id := none
    farm_id := none
    variety_id := 2
    supervisor_id := 7
    harvest_date := 100 }

/-- The same crate assigned to batch 1. -/
def crateInBatch1 : Crate := { crateFree with batch_id := some 1, farm_id := some 3 }

/-- C1: for an open batch and an existing unassigned crate, a successful
add_crate_to_batch sets the crate batch reference and increments
total_crates by exactly 1 and total_weight by exactly the crate weight;
for a batch whose status is not open the call fails with an error (an
HTTPException before commit, so nothing is assigned or incremented). -/
theorem add_crate_spec (b : Batch) (c : Crate)
    (hopen : b.status = "open") (hun : c.batch_id = none) :
    add_crate_to_batch b c = Except.ok
      ({ b with total_crates := b.total_crates + 1
                total_weight := b.total_weight + c.weight },
       { c with batch_id := some b.id
                farm_id := if c.farm_id = none then some b.from_location else c.farm_id })
    ∧ ∀ b3 : Batch, b3.status ≠ "open" →
        add_crate_to_batch b3 c =
          Except.error ("Cannot add crates to batch with status " ++ b3.status) := by
  constructor
  · unfold add_crate_to_batch
    simp [hopen, hun]
    by_cases hf : c.farm_id = none <;> simp [hf]
  · intro b3 h3
    unfold add_crate_to_batch
    simp [h3]

/-- Witness for add_crate_spec at the concrete open batch and free crate,
and the failure case at the same batch in in_transit status. -/
theorem add_crate_spec_witness :
    add_crate_to_batch batchOpen crateFree = Except.ok
      ({ batchOpen with total_crates := batchOpen.total_crates + 1
                        total_weight := batchOpen.total_weight + crateFree.weight },
       { crateFree with batch_id := some batchOpen.id
                        farm_id := if crateFree.farm_id = none
                          then some batchOpen.from_location else crateFree.farm_id })
    ∧ add_crate_to_batch (batchWith "in_transit") crateFree =
        Except.error ("Cannot add crates to batch with status "
          ++ (batchWith "in_transit").status) :=
  ⟨(add_crate_spec batchOpen crateFree rfl rfl).1,
   (add_crate_spec batchOpen crateFree rfl rfl).2 (batchWith "in_transit") (by decide)⟩

/-- C2: for every batch and every requested target outside the transition
table for its current status, a status-only update request fails with the
InvalidTransition error message naming the current status and the allowed
set, and (the error being raised before commit) does not mutate the batch. -/
theorem invalid_transition_rejected (supEx : Nat → Bool) (role : String) (now : Nat)
    (b : Batch) (t : String) (h : t ∉ VALID_BATCH_TRANSITIONS b.status) :
    update_batch supEx role now b { status := some t } =
      Except.error ("Cannot transition batch from " ++ b.status ++ " to " ++ t
        ++ ". Allowed transitions: "
        ++ allowedTransitionsStr (VALID_BATCH_TRANSITIONS b.status)) := by
  unfold update_batch applyTimestampFields applyStatusField validate_batch_transition
  simp [h]

/-- Witness for invalid_transition_rejected: a delivered batch refuses the
target open, reporting that only closed is allowed. -/
theorem invalid_transition_rejected_witness :
    update_batch (fun _ => true) "admin" 0 (batchWith "delivered") { status := some "open" } =
      Except.error ("Cannot transition batch from " ++ (batchWith "delivered").status
        ++ " to " ++ "open" ++ ". Allowed transitions: "
        ++ allowedTransitionsStr (VALID_BATCH_TRANSITIONS (batchWith "delivered").status)) :=
  invalid_transition_rejected (fun _ => true) "admin" 0 (batchWith "delivered") "open"
    (by decide)

/-- C5: the completeness flag of get_reconciliation_stats is true exactly
when the reconciled count equals the number of crates assigned to the batch
and that number is positive; a batch with zero assigned crates is never
reported complete. -/
theorem completeness_iff (crates : List Crate) (recons : List CrateReconciliation)
    (bid : Nat) :
    (get_reconciliation_stats crates recons bid).is_reconciliation_complete = true ↔
      (countReconciledInBatch recons bid = countCratesInBatch crates bid ∧
        0 < countCratesInBatch crates bid) := by
  simp [get_reconciliation_stats]

/-- C9: update_batch changes status as a side effect of the timestamp
fields without consulting the transition table: a non-null departure_time
moves an open batch to in_transit, and a non-null arrival_time moves an
in_transit batch directly to delivered, skipping arrived, with no
reconciliation-completeness check (the handler never reads the
reconciliation tables). -/
theorem timestamp_side_effect_transitions (supEx : Nat → Bool) (role : String)
    (now t : Nat) (b : Batch) :
    (b.status = "open" →
      update_batch supEx role now b { departure_time := some t } =
        Except.ok { b with departure_time := some t, status := "in_transit" }) ∧
    (b.status = "in_transit" →
      update_batch supEx role now b { arrival_time := some t } =
        Except.ok { b with arrival_time := some t, status := "delivered" }) := by
  constructor
  · intro hopen
    unfold update_batch applyTimestampFields applyStatusField
    simp [hopen]
  · intro hit
    unfold update_batch applyTimestampFields applyStatusField
    simp [hit]

/-- Witness for timestamp_side_effect_transitions: the concrete open batch
departs via a departure_time update, and the in_transit batch jumps to
delivered via an arrival_time update. -/
theorem timestamp_side_effect_transitions_witness :
    update_batch (fun _ => true) "supervisor" 0 batchOpen { departure_time := some 20 } =
      Except.ok { batchOpen with departure_time := some 20, status := "in_transit" } ∧
    update_batch (fun _ => true) "supervisor" 0 (batchWith "in_transit")
        { arrival_time := some 30 } =
      Except.ok { batchWith "in_transit" with
                  arrival_time := some 30
                  status := "delivered" } :=
  ⟨(timestamp_side_effect_transitions (fun _ => true) "supervisor" 0 20 batchOpen).1 rfl,
   (timestamp_side_effect_transitions (fun _ => true) "supervisor" 0 30
      (batchWith "in_transit")).2 rfl⟩

/-- A reconciliation record fixture for crate QR-001 against batch 1,
observed at weight 19/2 (9.5) against the declared weight. -/
def reconRec (declared observed : ℚ) : CrateReconciliation :=
  { batch_id := 1
    crate_id := 11
    crate_harvest_date := 100
    qr_code := "QR-001"
    reconciled_by_id := 9
    reconciled_at := 200
    weight := observed
    original_weight := declared
    weight_differential := observed - declared
    photo_url := none
    is_reconciled := true }

/-- C3: from the arrived status (where the transition to delivered is
otherwise legal), mark_batch_delivered fails with the completeness-required
error while fewer than all of the n > 0 assigned crates have a
reconciliation record (the error precedes the commit, so the status is
unchanged), and succeeds, setting the status to delivered, once the
reconciled count reaches n. -/
theorem deliver_requires_completeness (b : Batch) (crates : List Crate)
    (recons recons2 : List CrateReconciliation) (now now2 : Nat)
    (harr : b.status = "arrived")
    (hpos : 0 < countCratesInBatch crates b.id)
    (hlt : countReconciledInBatch recons b.id < countCratesInBatch crates b.id)
    (heq : countReconciledInBatch recons2 b.id = countCratesInBatch crates b.id) :
    mark_batch_delivered b crates recons now =
      Except.error "Cannot mark batch as delivered. All crates must be reconciled first." ∧
    mark_batch_delivered b crates recons2 now2 =
      Except.ok { b with status := "delivered", updated_at := some now2 } := by
  have htab : VALID_BATCH_TRANSITIONS "arrived" = ["delivered"] := rfl
  constructor
  · unfold mark_batch_delivered validate_batch_transition
    simp [harr, htab, get_reconciliation_stats, Nat.ne_of_lt hlt]
  · unfold mark_batch_delivered validate_batch_transition
    simp [harr, htab, get_reconciliation_stats, heq, hpos]

/-- Witness for deliver_requires_completeness: an arrived batch holding one
crate, first with no reconciliation record, then with one. -/
theorem deliver_requires_completeness_witness :
    mark_batch_delivered (batchWith "arrived") [crateInBatch1] [] 40 =
      Except.error "Cannot mark batch as delivered. All crates must be reconciled first." ∧
    mark_batch_delivered (batchWith "arrived") [crateInBatch1] [reconRec 5 (9/2)] 41 =
      Except.ok { batchWith "arrived" with status := "delivered", updated_at := some 41 } :=
  deliver_requires_completeness (batchWith "arrived") [crateInBatch1]
    [] [reconRec 5 (9/2)] 40 41 rfl (by decide) (by decide) (by decide)

/-- The reconciliation record that reconcile_crate constructs on the fresh
(non-upsert) path, spelled out for use in statements. -/
def reconRecordOf (b : Batch) (crate : Crate) (qr : String) (w : ℚ)
    (photo_url : Option String) (userId now : Nat) : CrateReconciliation :=
  { batch_id := b.id
    crate_id := crate.id
    crate_harvest_date := crate.harvest_date
    qr_code := qr
    reconciled_by_id := userId
    reconciled_at := now
    weight := w
    original_weight := crate.weight
    weight_differential := w - crate.weight
    photo_url := photo_url
    is_reconciled := true }

/-- C8: a weight-based reconciliation of observed weight w against a crate
of declared weight d records the differential w - d; the aggregate
differential grows by exactly that amount, so a negative differential
lowers it; and the reported loss percentage is the (two-decimal-rounded)
sum of differentials divided by the sum of declared weights times 100. -/
theorem weight_differential_spec (b : Batch) (crates : List Crate)
    (recons : List CrateReconciliation) (qr : String) (c : Crate) (w : ℚ)
    (photo : Option String) (userId now : Nat)
    (hst : b.status = "arrived" ∨ b.status = "delivered")
    (hw : 0 < w)
    (hfind : crates.find? (fun cr => cr.qr_code == qr) = some c)
    (hc : c.batch_id = some b.id)
    (hfresh : recons.find? (fun r => r.batch_id == b.id && r.qr_code == qr) = none) :
    reconcile_crate b crates recons qr (some w) photo userId now =
      Except.ok (recons ++ [reconRecordOf b c qr w photo userId now],
        get_reconciliation_stats crates
          (recons ++ [reconRecordOf b c qr w photo userId now]) b.id) ∧
    (reconRecordOf b c qr w photo userId now).weight_differential = w - c.weight ∧
    sumWeightDifferentials (recons ++ [reconRecordOf b c qr w photo userId now]) b.id
      = sumWeightDifferentials recons b.id + (w - c.weight) ∧
    (get_reconciliation_stats crates
        (recons ++ [reconRecordOf b c qr w photo userId now]) b.id).weight_loss_percentage
      = round2 (if 0 < sumCrateWeights crates b.id
          then sumWeightDifferentials
                (recons ++ [reconRecordOf b c qr w photo userId now]) b.id
              / sumCrateWeights crates b.id * 100
          else 0) := by
  refine ⟨?_, rfl, ?_, ?_⟩
  · unfold reconcile_crate
    rcases hst with h | h <;>
      simp [h, not_le.mpr hw, hfind, hc, hfresh, reconRecordOf]
  · simp [sumWeightDifferentials, List.filter_append, reconRecordOf]
  · simp [get_reconciliation_stats]

/-- The assigned crate of batch 1 with declared weight 10. -/
def crateTen : Crate := { crateInBatch1 with weight := 10 }

/-- Witness for weight_differential_spec: observed 9.5 against declared
10.0 records differential -0.5. -/
theorem weight_differential_spec_witness :
    reconcile_crate (batchWith "arrived") [crateTen] [] "QR-001"
        (some ((19 : ℚ)/2)) none 9 200 =
      Except.ok ([] ++ [reconRecordOf (batchWith "arrived") crateTen "QR-001"
          ((19 : ℚ)/2) none 9 200],
        get_reconciliation_stats [crateTen]
          ([] ++ [reconRecordOf (batchWith "arrived") crateTen "QR-001"
            ((19 : ℚ)/2) none 9 200]) (batchWith "arrived").id) ∧
    (reconRecordOf (batchWith "arrived") crateTen "QR-001"
        ((19 : ℚ)/2) none 9 200).weight_differential = -(1/2 : ℚ) := by
  have h := weight_differential_spec (batchWith "arrived") [crateTen] [] "QR-001"
    crateTen ((19 : ℚ)/2) none 9 200 (Or.inl rfl) (by norm_num) (by decide) rfl rfl
  refine ⟨h.1, ?_⟩
  have h2 := h.2.1
  rw [h2]
  norm_num [crateTen, crateInBatch1, crateFree]

/-- The log row that scan_crate constructs, spelled out for statements. -/
def scanLogOf (b : Batch) (qr : String) (cid : Option Nat) (st : String)
    (now userId newId : Nat) : ReconciliationLog :=
  { id := newId
    batch_id := b.id
    scanned_qr := qr
    crate_id := cid
    status := st
    timestamp := now
    scanned_by_id := userId }

/-- The batch row after a matched scan: the auto-advance of scan_crate,
condensed to a single conditional. -/
def batchAfterMatched (b : Batch) (crates : List Crate)
    (logs2 : List ReconciliationLog) : Batch :=
  if b.status = "delivered" ∧
      (matchedDistinctCrates logs2 b.id ≥ countCratesInBatch crates b.id ∧
        0 < countCratesInBatch crates b.id) then
    { b with status := "reconciled" }
  else b

theorem batchAfterMatched_id (b : Batch) (crates : List Crate)
    (logs2 : List ReconciliationLog) :
    (batchAfterMatched b crates logs2).id = b.id := by
  unfold batchAfterMatched; split <;> rfl

theorem batchAfterMatched_status (b : Batch) (crates : List Crate)
    (logs2 : List ReconciliationLog) :
    (batchAfterMatched b crates logs2).status = "reconciled" ∨
    (batchAfterMatched b crates logs2).status = b.status := by
  unfold batchAfterMatched; split
  · exact Or.inl rfl
  · exact Or.inr rfl

/-- Appending to a list with no match makes the appended element the first
match of the extended list. -/
theorem find?_append_of_none {α : Type} (p : α → Bool) (l : List α) (a : α)
    (h : l.find? p = none) (hp : p a = true) : (l ++ [a]).find? p = some a := by
  induction l with
  | nil => simp [hp]
  | cons x xs ih =>
    cases hx : p x with
    | true =>
      rw [List.find?_cons_of_pos _ hx] at h
      exact absurd h (by simp)
    | false =>
      have hx2 : ¬p x = true := by simp [hx]
      rw [List.find?_cons_of_neg _ hx2] at h
      rw [List.cons_append, List.find?_cons_of_neg _ hx2]
      exact ih h

/-- C4: scan reconciliation is idempotent per (batch, code). With the crate
assigned to the batch and no prior observation for the pair, the first scan
classifies matched and appends one log; the second scan over the resulting
state classifies duplicate, leaves the log table (hence the prior record)
unchanged, and the matched-log reconciled count for the batch grows by
exactly 1 across the two calls. -/
theorem scan_idempotent_per_batch_code (b : Batch) (crates : List Crate)
    (logs : List ReconciliationLog) (qr : String) (c : Crate)
    (userId now newId userId2 now2 newId2 : Nat)
    (helig : b.status ∈ ["in_transit", "delivered", "reconciled"])
    (hfind : crates.find? (fun cr => cr.qr_code == qr) = some c)
    (hc : c.batch_id = some b.id)
    (hfresh : logs.find? (fun l => l.batch_id == b.id && l.scanned_qr == qr) = none) :
    scan_crate b crates logs qr userId now newId =
      Except.ok
        { scan_status := "matched"
          logs := logs ++ [scanLogOf b qr (some c.id) "matched" now userId newId]
          batch := batchAfterMatched b crates
            (logs ++ [scanLogOf b qr (some c.id) "matched" now userId newId]) } ∧
    scan_crate
        (batchAfterMatched b crates
          (logs ++ [scanLogOf b qr (some c.id) "matched" now userId newId]))
        crates (logs ++ [scanLogOf b qr (some c.id) "matched" now userId newId])
        qr userId2 now2 newId2 =
      Except.ok
        { scan_status := "duplicate"
          logs := logs ++ [scanLogOf b qr (some c.id) "matched" now userId newId]
          batch := batchAfterMatched b crates
            (logs ++ [scanLogOf b qr (some c.id) "matched" now userId newId]) } ∧
    reconciled_count
        (logs ++ [scanLogOf b qr (some c.id) "matched" now userId newId]) b.id =
      reconciled_count logs b.id + 1 := by
  refine ⟨?_, ?_, ?_⟩
  · unfold scan_crate
    simp [helig, hfresh, hfind, hc, scanLogOf]
    unfold batchAfterMatched
    by_cases hdel : b.status = "delivered" <;> simp [hdel, scanLogOf]
  · have hid := batchAfterMatched_id b crates
      (logs ++ [scanLogOf b qr (some c.id) "matched" now userId newId])
    have hfound : (logs ++ [scanLogOf b qr (some c.id) "matched" now userId newId]).find?
        (fun l => l.batch_id ==
            (batchAfterMatched b crates
              (logs ++ [scanLogOf b qr (some c.id) "matched" now userId newId])).id
          && l.scanned_qr == qr)
        = some (scanLogOf b qr (some c.id) "matched" now userId newId) := by
      rw [hid]
      refine find?_append_of_none _ _ _ hfresh ?_
      simp [scanLogOf]
    unfold scan_crate
    rcases batchAfterMatched_status b crates
        (logs ++ [scanLogOf b qr (some c.id) "matched" now userId newId]) with hs | hs
    · simp [hs, hfound]
    · simp [hs, helig, hfound]
  · simp [reconciled_count, List.filter_append, scanLogOf]

/-- Witness for scan_idempotent_per_batch_code: batch 1 in transit with one
assigned crate, scanned twice; the first and third conjuncts instantiated. -/
theorem scan_idempotent_per_batch_code_witness :
    scan_crate (batchWith "in_transit") [crateInBatch1] [] "QR-001" 9 50 1 =
      Except.ok
        { scan_status := "matched"
          logs := [] ++ [scanLogOf (batchWith "in_transit") "QR-001"
            (some crateInBatch1.id) "matched" 50 9 1]
          batch := batchAfterMatched (batchWith "in_transit") [crateInBatch1]
            ([] ++ [scanLogOf (batchWith "in_transit") "QR-001"
              (some crateInBatch1.id) "matched" 50 9 1]) } ∧
    reconciled_count
        ([] ++ [scanLogOf (batchWith "in_transit") "QR-001"
          (some crateInBatch1.id) "matched" 50 9 1]) (batchWith "in_transit").id =
      reconciled_count [] (batchWith "in_transit").id + 1 := by
  have h := scan_idempotent_per_batch_code (batchWith "in_transit") [crateInBatch1] []
    "QR-001" crateInBatch1 9 50 1 9 60 2 (by decide) (by decide) rfl rfl
  exact ⟨h.1, h.2.2⟩

/-- C6 counterexample: a batch in the arrived status lies inside the set the
claim declares reconciliation-eligible (in_transit, arrived, delivered), yet
scan_crate rejects its scan with an error and records no observation. -/
theorem scan_eligibility_counterexample :
    (batchWith "arrived").status = "arrived" ∧
    scan_crate (batchWith "arrived") [crateInBatch1] [] "QR-001" 9 50 1 =
      Except.error ("Batch " ++ (batchWith "arrived").batch_code
        ++ " is in " ++ (batchWith "arrived").status
        ++ " status and cannot be reconciled") := by
  exact ⟨rfl, rfl⟩

/-- C6 amended: scan_crate rejects a scan, recording nothing, exactly when
the batch status is outside the eligible set the code actually uses, which
is in_transit / delivered / reconciled (arrived is NOT eligible); for any
status inside that set the scan is accepted and classified as one of
matched, wrong_batch, not_found, duplicate. -/
theorem scan_eligibility_amended (b : Batch) (crates : List Crate)
    (logs : List ReconciliationLog) (qr : String) (userId now newId : Nat) :
    (b.status ∉ ["in_transit", "delivered", "reconciled"] →
      scan_crate b crates logs qr userId now newId =
        Except.error ("Batch " ++ b.batch_code ++ " is in " ++ b.status
          ++ " status and cannot be reconciled")) ∧
    (b.status ∈ ["in_transit", "delivered", "reconciled"] →
      (scan_crate b crates logs qr userId now newId).isOk = true ∧
      ∀ r : ScanResult, scan_crate b crates logs qr userId now newId = Except.ok r →
        r.scan_status = "matched" ∨ r.scan_status = "wrong_batch" ∨
        r.scan_status = "not_found" ∨ r.scan_status = "duplicate") := by
  constructor
  · intro h
    unfold scan_crate
    simp [h]
  · intro h
    have hne : ¬ b.status ∉ ["in_transit", "delivered", "reconciled"] := not_not_intro h
    constructor
    · unfold scan_crate
      rw [if_neg hne]
      cases logs.find? (fun l => l.batch_id == b.id && l.scanned_qr == qr) <;> rfl
    · intro r hr
      unfold scan_crate at hr
      rw [if_neg hne] at hr
      rcases hdup : logs.find? (fun l => l.batch_id == b.id && l.scanned_qr == qr)
        with _ | l
      · rw [hdup] at hr
        rcases hcr : crates.find? (fun cr => cr.qr_code == qr) with _ | c
        · simp only [hcr] at hr
          obtain rfl := (Except.ok.injEq _ _).mp hr.symm |>.symm
          simp
        · simp only [hcr] at hr
          by_cases hcb : c.batch_id ≠ some b.id
          · simp only [if_pos hcb] at hr
            obtain rfl := (Except.ok.injEq _ _).mp hr.symm |>.symm
            simp
          · simp only [if_neg hcb] at hr
            obtain rfl := (Except.ok.injEq _ _).mp hr.symm |>.symm
            simp
      · rw [hdup] at hr
        obtain rfl := (Except.ok.injEq _ _).mp hr.symm |>.symm
        simp

/-- Witness for scan_eligibility_amended: an open batch is rejected; a
delivered batch is accepted. -/
theorem scan_eligibility_amended_witness :
    scan_crate (batchWith "open") [crateInBatch1] [] "QR-001" 9 50 1 =
      Except.error ("Batch " ++ (batchWith "open").batch_code ++ " is in "
        ++ (batchWith "open").status ++ " status and cannot be reconciled") ∧
    (scan_crate (batchWith "delivered") [crateInBatch1] [] "QR-001" 9 50 1).isOk
      = true :=
  ⟨(scan_eligibility_amended (batchWith "open") [crateInBatch1] [] "QR-001"
      9 50 1).1 (by decide),
   ((scan_eligibility_amended (batchWith "delivered") [crateInBatch1] [] "QR-001"
      9 50 1).2 (by decide)).1⟩

/-- C7 counterexample: a batch in transit with a single assigned crate whose
scan classifies matched, after which every assigned crate has a matched
observation, yet scan_crate leaves the status at in_transit: the
auto-advance fires only from the delivered status, not from in_transit. -/
theorem auto_advance_counterexample :
    (batchWith "in_transit").status = "in_transit" ∧
    scan_crate (batchWith "in_transit") [crateInBatch1] [] "QR-001" 9 50 1 =
      Except.ok
        { scan_status := "matched"
          logs := [scanLogOf (batchWith "in_transit") "QR-001"
            (some crateInBatch1.id) "matched" 50 9 1]
          batch := batchWith "in_transit" } ∧
    matchedDistinctCrates [scanLogOf (batchWith "in_transit") "QR-001"
        (some crateInBatch1.id) "matched" 50 9 1] (batchWith "in_transit").id =
      countCratesInBatch [crateInBatch1] (batchWith "in_transit").id ∧
    0 < countCratesInBatch [crateInBatch1] (batchWith "in_transit").id := by
  exact ⟨rfl, rfl, by decide, by decide⟩

/-- C7 amended: immediately after a scan of the batch is classified matched,
if every assigned crate now has a matched observation and the batch has at
least one crate, scan_crate auto-advances the status to reconciled when the
current status is delivered (and only then: from in_transit the status is
left unchanged, per the counterexample). -/
theorem auto_advance_only_delivered (b : Batch) (crates : List Crate)
    (logs : List ReconciliationLog) (qr : String) (c : Crate)
    (userId now newId : Nat)
    (hdel : b.status = "delivered")
    (hfind : crates.find? (fun cr => cr.qr_code == qr) = some c)
    (hc : c.batch_id = some b.id)
    (hfresh : logs.find? (fun l => l.batch_id == b.id && l.scanned_qr == qr) = none)
    (hall : countCratesInBatch crates b.id ≤
      matchedDistinctCrates
        (logs ++ [scanLogOf b qr (some c.id) "matched" now userId newId]) b.id)
    (hpos : 0 < countCratesInBatch crates b.id) :
    scan_crate b crates logs qr userId now newId =
      Except.ok
        { scan_status := "matched"
          logs := logs ++ [scanLogOf b qr (some c.id) "matched" now userId newId]
          batch := { b with status := "reconciled" } } := by
  have hall2 := hall
  simp only [scanLogOf] at hall2
  unfold scan_crate
  simp [hdel, hfresh, hfind, hc, scanLogOf, hall2, hpos]

/-- Witness for auto_advance_only_delivered: the delivered batch with one
assigned crate advances to reconciled on its matched scan. -/
theorem auto_advance_only_delivered_witness :
    scan_crate (batchWith "delivered") [crateInBatch1] [] "QR-001" 9 50 1 =
      Except.ok
        { scan_status := "matched"
          logs := [] ++ [scanLogOf (batchWith "delivered") "QR-001"
            (some crateInBatch1.id) "matched" 50 9 1]
          batch := { batchWith "delivered" with status := "reconciled" } } :=
  auto_advance_only_delivered (batchWith "delivered") [crateInBatch1] [] "QR-001"
    crateInBatch1 9 50 1 rfl (by decide) rfl rfl (by decide) (by decide)

/-- HSET on an existing field preserves the hash size. -/
theorem hsetMarker_length_of_mem (m : List (String × CrateMarker)) (k : String)
    (v : CrateMarker) (hk : m.any (fun p => p.1 == k) = true) :
    (hsetMarker m k v).length = m.length := by
  simp [hsetMarker, hk]

/-- Overwriting every entry at a present key makes the first entry found at
that key carry the new value. -/
theorem find?_map_overwrite (m : List (String × CrateMarker)) (k : String)
    (v : CrateMarker) (hk : m.any (fun p => p.1 == k) = true) :
    (m.map (fun p => if p.1 == k then (k, v) else p)).find? (fun p => p.1 == k)
      = some (k, v) := by
  induction m with
  | nil => simp at hk
  | cons x xs ih =>
    cases hx : (x.1 == k) with
    | true =>
      have hx2 : x.1 = k := by simpa using hx
      simp [hx2]
    | false =>
      simp only [List.any_cons, hx, Bool.false_or] at hk
      have hx3 : ¬((x.1 == k) = true) := by simp [hx]
      simp only [List.map_cons, if_neg hx3]
      rw [List.find?_cons_of_neg]
      · exact ih hk
      · exact hx3

/-- HSET on an existing field overwrites it: the first entry at the key in
the updated hash carries the new value. -/
theorem hsetMarker_find_of_mem (m : List (String × CrateMarker)) (k : String)
    (v : CrateMarker) (hk : m.any (fun p => p.1 == k) = true) :
    (hsetMarker m k v).find? (fun p => p.1 == k) = some (k, v) := by
  unfold hsetMarker
  rw [if_pos hk]
  exact find?_map_overwrite m k v hk

/-- C10: the reconciled_count reported by the fast-path cache status read
always equals the number of entries of the per-crate marker map, whatever
the stored scalar says; hence reconciling a crate already marked in the
batch overwrites that marker and leaves the reported count unchanged. -/
theorem cache_reconciled_count_spec (s : RedisBatchState) (k : String)
    (uid ts : Nat) (photo : Option String) (w : Option ℚ)
    (hk : s.crateMarkers.any (fun p => p.1 == k) = true) :
    (BatchReconciliationManager.get_reconciliation_status s).reconciled_count
        = s.crateMarkers.length ∧
    (BatchReconciliationManager.get_reconciliation_status
        (BatchReconciliationManager.reconcile_crate s k uid ts photo w)).reconciled_count
        = s.crateMarkers.length ∧
    (BatchReconciliationManager.reconcile_crate s k uid ts photo w).crateMarkers.find?
        (fun p => p.1 == k)
        = some (k, { reconciled_by := uid, reconciled_at := ts
                     photo_url := photo, weight := w }) := by
  refine ⟨rfl, ?_, ?_⟩
  · show (hsetMarker s.crateMarkers k
      { reconciled_by := uid, reconciled_at := ts
        photo_url := photo, weight := w }).length = s.crateMarkers.length
    exact hsetMarker_length_of_mem _ _ _ hk
  · exact hsetMarker_find_of_mem _ _ _ hk

/-- A concrete cache state whose stored reconciled_count scalar (7)
disagrees with its single-entry marker map. -/
def staleCache : RedisBatchState :=
  { batchData := some { closed := false, closed_at := none, closed_by := none
                        total_crates := 3, reconciled_count := 7 }
    crateMarkers := [("11", { reconciled_by := 4, reconciled_at := 30
                              photo_url := none, weight := none })] }

/-- Witness for cache_reconciled_count_spec: a cache state whose stored
scalar (7) disagrees with its one-entry marker map; the read reports 1, and
re-reconciling the marked crate keeps the count at 1 while overwriting the
marker. -/
theorem cache_reconciled_count_spec_witness :
    (BatchReconciliationManager.get_reconciliation_status staleCache).reconciled_count
        = staleCache.crateMarkers.length ∧
    (BatchReconciliationManager.get_reconciliation_status
        (BatchReconciliationManager.reconcile_crate staleCache "11" 9 60 none
          (some 5))).reconciled_count
        = staleCache.crateMarkers.length ∧
    (BatchReconciliationManager.reconcile_crate staleCache "11" 9 60 none
        (some 5)).crateMarkers.find? (fun p => p.1 == "11")
        = some ("11", { reconciled_by := 9, reconciled_at := 60
                        photo_url := none, weight := some 5 }) :=
  cache_reconciled_count_spec staleCache "11" 9 60 none (some 5) (by decide)
